import Mathlib

/-
Verification of the dual-mesh construction in src/polyglot/create_dual_mesh.c
against its natural-language specification (spec.md).

Shallow embedding conventions:
* machine doubles become rationals (ℚ); the floating-point literal 0.5 is 1/2;
* C int values that can carry the sentinel -1 become ℤ, index values known to
  be nonnegative become ℕ;
* polymec library services that are out of scope for the repository
  (tetrahedron circumcenter / nearest point, plane projection + atan2,
  polygon gift-wrapping) are abstracted as explicit function parameters:
  every claim settled below is independent of their values;
* unordered-set iteration order is made explicit by passing the iteration
  sequence as a list;
* uninitialized C memory (stack arrays and heap int_array slots that are
  read before being written) is modelled by an explicit "garbage" parameter
  supplying the unknown initial contents.
-/

namespace Polyglot

/-- A 3-D point (polymec point_t), with real coordinates modelled as ℚ. -/
structure Pt where
  x : ℚ
  y : ℚ
  z : ℚ
deriving DecidableEq, Repr

/-- The fields of the primal tetrahedral mesh (polymec mesh_t) that the
dual-vertex generation reads: entity counts, node coordinates, and the
edge → (node, node) incidence (edge_nodes[2*e], edge_nodes[2*e+1]). -/
structure TetMesh where
  num_cells : ℕ
  num_edges : ℕ
  num_nodes : ℕ
  nodes : ℕ → Pt
  edge_nodes : ℕ → ℕ × ℕ

/-! ### Model-edge dual vertices (create_dual_mesh.c lines 335-352) -/

/-- Body of the model-edge dual-vertex loop (lines 343-349): the generated
node is 0.5*(x1+x2) componentwise, where x1, x2 are the coordinates of the
primal edge's two endpoint nodes. -/
def modelEdgeDualVertex (m : TetMesh) (edge : ℕ) : Pt :=
  let x1 := m.nodes (m.edge_nodes edge).1
  let x2 := m.nodes (m.edge_nodes edge).2
  { x := (1/2 : ℚ) * (x1.x + x2.x)
  , y := (1/2 : ℚ) * (x1.y + x2.y)
  , z := (1/2 : ℚ) * (x1.z + x2.z) }

/-- Spec-side definition: the componentwise midpoint (x1+x2)/2 of two points. -/
def midpointPt (p q : Pt) : Pt :=
  { x := (p.x + q.x) / 2, y := (p.y + q.y) / 2, z := (p.z + q.z) / 2 }

/-! ### The dual_node_for_edge lookup map (lines 336-352)

The C loop is
  for (int e = 0; e < num_edges; ++e, ++dv_offset) {
    int edge = tag[e];
    ... midpoint written to dual_mesh->nodes[dv_offset] ...
    int_int_unordered_map_insert(dual_node_for_edge, e, dv_offset); }
Note that the key inserted is the loop position `e`, not the primal edge
index `edge = tag[e]`. -/

/-- int_int_unordered_map modelled as a function ℕ → Option ℕ; insertion
overwrites the binding of the key. -/
def insertMap (m : ℕ → Option ℕ) (k v : ℕ) : ℕ → Option ℕ :=
  fun k2 => if k2 = k then some v else m k2

/-- The empty int_int_unordered_map. -/
def emptyMap : ℕ → Option ℕ := fun _ => none

/-- Inner loop over one model-edge tag (lines 341-351).  State: the
coordinates generated so far, the list of (primal edge, dual-vertex offset)
pairs actually generated, the map, the tag position `e` and the running
dual-vertex offset `dv`.  The map key is the position `e`, exactly as in the
source. -/
def genEdgesLoop (mesh : TetMesh) :
    (ℕ → Option ℕ) → ℕ → ℕ → List ℕ →
    (List Pt × List (ℕ × ℕ) × (ℕ → Option ℕ) × ℕ)
  | mp, _, dv, [] => ([], [], mp, dv)
  | mp, e, dv, edge :: rest =>
    let p := modelEdgeDualVertex mesh edge
    let out := genEdgesLoop mesh (insertMap mp e dv) (e+1) (dv+1) rest
    (p :: out.1, (edge, dv) :: out.2.1, out.2.2)

/-- Outer loop over the model-edge tags (lines 337-352): the tag position
counter `e` restarts at 0 for each tag, the dual-vertex offset `dv` does
not. -/
def genEdgesTags (mesh : TetMesh) :
    (ℕ → Option ℕ) → ℕ → List (List ℕ) →
    (List Pt × List (ℕ × ℕ) × (ℕ → Option ℕ) × ℕ)
  | mp, dv, [] => ([], [], mp, dv)
  | mp, dv, tag :: tags =>
    let out1 := genEdgesLoop mesh mp 0 dv tag
    let out2 := genEdgesTags mesh out1.2.2.1 out1.2.2.2 tags
    (out1.1 ++ out2.1, out1.2.1 ++ out2.2.1, out2.2.2)

/-- The append step of the external-boundary branch for a model edge
(lines 432-438): look the primal edge index up in dual_node_for_edge and
append the resulting dual-vertex index to the face's node list.  A failed
lookup is the fatal ASSERT / NULL dereference of lines 434-436, modelled as
`none`. -/
def appendEdgeDualNode (mp : ℕ → Option ℕ) (edge : ℕ) (faceNodes : List ℤ) :
    Option (List ℤ) :=
  match mp edge with
  | none => none
  | some dv => some (faceNodes ++ [(dv : ℤ)])

/-- A small concrete primal mesh used to evaluate the generation loops. -/
def meshA : TetMesh where
  num_cells := 2
  num_edges := 6
  num_nodes := 4
  nodes := fun n => { x := (n : ℚ), y := 0, z := 0 }
  edge_nodes := fun e => (e % 4, (e+1) % 4)

/-! ### face_cells back-fill during compaction (lines 655-662)

  int face = cell_faces->data[f];
  if (dual_mesh->face_cells[2*face] == -1)
    dual_mesh->face_cells[2*face] = c;
  else
    dual_mesh->face_cells[2*face+1] = c;
-/

/-- One write of dual cell `c` into the two face_cells slots of a face. -/
def faceCellsWrite (slots : ℤ × ℤ) (c : ℤ) : ℤ × ℤ :=
  if slots.1 = -1 then (c, slots.2) else (slots.1, c)

/-- The slot pair of one dual face after the compaction loop has processed
the given sequence of dual cells listing that face; both slots start at the
sentinel -1 (mesh_reserve_connectivity_storage). -/
def faceCellsAfter (writes : List ℤ) : ℤ × ℤ :=
  writes.foldl faceCellsWrite (-1, -1)

/-! ### Dual-cell assembly (lines 642-647) and the compaction loop (650-663)

  int dc_offset = 0;
  int_array_t** faces_for_dual_cell = polymec_malloc(...);
  memset(faces_for_dual_cell, 0, sizeof(int_array_t*) * num_dual_cells);
  // FIXME
  ASSERT(dc_offset == num_dual_cells);

No face list is ever assigned, so every entry stays NULL and dc_offset
stays 0; the compaction loop then reads cell_faces->data from a NULL
pointer for every dual cell. -/

/-- The per-cell face-list array after dual-cell assembly: num_dual_cells
entries, all NULL. -/
def facesForDualCell (numDualCells : ℕ) : List (Option (List ℤ)) :=
  List.replicate numDualCells none

/-- The dual-cell counter after assembly: never incremented past 0. -/
def dcOffsetFinal : ℕ := 0

/-- The compaction loop over dual cells (lines 651-663): each iteration
dereferences the cell's face list; a NULL list is a crash, modelled by the
whole loop returning `none`. -/
def compactDualCells : List (Option (List ℤ)) → Option (List (List ℤ))
  | [] => some []
  | none :: _ => none
  | some fs :: rest => (compactDualCells rest).map (fun l => fs :: l)

/-! ### Dual-face counting (lines 287-288) and the per-edge emission loop
(lines 372-570) -/

/-- num_dual_faces = tet_mesh->num_edges + external_model_face_edges->size +
num_dual_faces_from_boundary_vertices (lines 287-288).  The three summands
are passed in already counted. -/
def numDualFaces (numEdges extFaceEdgeCount numBVFaces : ℕ) : ℕ :=
  numEdges + extFaceEdgeCount + numBVFaces

/-- Classification flags of one primal edge, as tested at lines 378-379:
membership in external_model_face_edges and internal_model_face_edges. -/
structure EdgeClass where
  isExternalFaceEdge : Bool
  isInternalFaceEdge : Bool
deriving DecidableEq, Repr

/-- Number of df_offset increments the edge loop performs for one edge:
the external branch (line 439) does ++df_offset, the internal branch
(line 542) does df_offset += 2, the interior branch (line 568) does
++df_offset; the external test is made first. -/
def dualFacesEmittedForEdge (e : EdgeClass) : ℕ :=
  if e.isExternalFaceEdge then 1 else if e.isInternalFaceEdge then 2 else 1

/-- df_offset after the loop over all primal edges (each primal edge is
visited exactly once, in index order). -/
def dfOffsetAfterEdgeLoop (edges : List EdgeClass) : ℕ :=
  edges.foldl (fun acc e => acc + dualFacesEmittedForEdge e) 0

/-! ### Dual-node counting (lines 250-253) and generation order (297-365) -/

/-- Size of the unordered set obtained by inserting every entry of every
tag of a tag family (int_unordered_set semantics: duplicates collapse). -/
def setSize (tags : List (List ℕ)) : ℕ :=
  tags.flatten.dedup.length

/-- Total number of dual vertices the generation loops of one tag family
produce: one per tag entry (the loops run over tag arrays, not sets). -/
def tagEntryCount (tags : List (List ℕ)) : ℕ :=
  tags.flatten.length

/-- num_dual_nodes (lines 251-253) = external_model_faces->size +
internal_model_faces->size + num_cells + model_edges->size +
model_vertices->size. -/
def numDualNodes (mesh : TetMesh) (ext int edge vtx : List (List ℕ)) : ℕ :=
  setSize ext + setSize int + mesh.num_cells + setSize edge + setSize vtx

/-- Category of the primal entity a dual vertex is generated from. -/
inductive DualNodeSource where
  | cell
  | modelFace
  | modelEdge
  | modelVertex
deriving DecidableEq, Repr

/-- The sequence of source categories written to dual_mesh->nodes as
dv_offset is incremented (lines 297-365): the cell loop first, then the
external-face-tag loops, the internal-face-tag loops, the edge-tag loops,
and the vertex-tag loops, one dual vertex per tag entry. -/
def dualNodeGenSources (mesh : TetMesh) (ext int edge vtx : List (List ℕ)) :
    List DualNodeSource :=
  (List.range mesh.num_cells).map (fun _ => DualNodeSource.cell)
    ++ ext.flatten.map (fun _ => DualNodeSource.modelFace)
    ++ int.flatten.map (fun _ => DualNodeSource.modelFace)
    ++ edge.flatten.map (fun _ => DualNodeSource.modelEdge)
    ++ vtx.flatten.map (fun _ => DualNodeSource.modelVertex)

/-! ### Cell dual vertices (lines 297-307)

  tetrahedron_t* tet = tetrahedron_new();
  int dv_offset = 0;
  for (int c = 0; c < tet_mesh->num_cells; ++c, ++dv_offset)
  {
    point_t xc;
    tetrahedron_compute_circumcenter(tet, &xc);
    tetrahedron_compute_nearest_point(tet, &xc, &dual_mesh->nodes[dv_offset]);
  }

The loop body never loads the vertices of cell c into `tet`: it reads only
the freshly created tetrahedron.  The geometric services are external
(spec §6), so they are abstracted as parameters `circ` and `np` together
with the post-tetrahedron_new state `tet0`. -/

/-- The tetrahedron_t state: four vertex points (polymec geometry library,
out of scope; only its identity matters here). -/
structure Tetrahedron where
  vertices : Fin 4 → Pt

/-- The dual vertex the cell loop writes for cell c: the nearest point to
the circumcenter of `tet0` — the loop body does not depend on c or on the
mesh. -/
def cellDualVertex (tet0 : Tetrahedron) (circ : Tetrahedron → Pt)
    (np : Tetrahedron → Pt → Pt) (c : ℕ) : Pt :=
  np tet0 (circ tet0)

/-- Spec-side definition: membership of p in the convex hull of the four
points a b c d (barycentric coordinates). -/
def inTetHull (a b c d p : Pt) : Prop :=
  ∃ l0 l1 l2 l3 : ℚ,
    0 ≤ l0 ∧ 0 ≤ l1 ∧ 0 ≤ l2 ∧ 0 ≤ l3 ∧ l0 + l1 + l2 + l3 = 1 ∧
    p.x = l0 * a.x + l1 * b.x + l2 * c.x + l3 * d.x ∧
    p.y = l0 * a.y + l1 * b.y + l2 * c.y + l3 * d.y ∧
    p.z = l0 * a.z + l1 * b.z + l2 * c.z + l3 * d.z

/-- Vertices of a unit tetrahedron at the origin. -/
def tetCell0 : Fin 4 → Pt
  | 0 => { x := 0, y := 0, z := 0 }
  | 1 => { x := 1, y := 0, z := 0 }
  | 2 => { x := 0, y := 1, z := 0 }
  | 3 => { x := 0, y := 0, z := 1 }

/-- Vertices of a second, disjoint unit tetrahedron shifted by 5 in x. -/
def tetCell1 : Fin 4 → Pt
  | 0 => { x := 5, y := 0, z := 0 }
  | 1 => { x := 6, y := 0, z := 0 }
  | 2 => { x := 5, y := 1, z := 0 }
  | 3 => { x := 5, y := 0, z := 1 }

/-! ### order_nodes_of_dual_face (lines 33-89)

The plane projection and atan2 of lines 74-77 are geometric services of the
external library; they are abstracted as `angleOf i`, the polar angle the C
code would compute for the node at position i.  qsort with the comparator
dual_face_node_cmp (compare the angle fields) is modelled by an insertion
sort on the angle field; qsort is unstable, so results are only compared at
inputs whose angles are pairwise distinct. -/

/-- One insertion step of the sort by ascending angle. -/
def insertByAngle (p : ℚ × ℤ) : List (ℚ × ℤ) → List (ℚ × ℤ)
  | [] => [p]
  | q :: rest => if p.1 < q.1 then p :: q :: rest else q :: insertByAngle p rest

/-- Sort by ascending angle (the effect of qsort with dual_face_node_cmp on
lists with pairwise distinct angles). -/
def sortByAngle : List (ℚ × ℤ) → List (ℚ × ℤ)
  | [] => []
  | p :: rest => insertByAngle p (sortByAngle rest)

/-- order_nodes_of_dual_face (lines 33-89).  `ep` is endpoint_indices,
`init` the contents of dual_node_indices at entry (the caller pre-fills it
with primal cell indices, lines 395-407), `garbage` the uninitialized
contents of the stack array tweener_nodes.  Returns the final contents of
dual_node_indices.

Faithful details:
* num_nodes == 3 (lines 50-63): dual_node_indices[0] and [2] are first
  overwritten with the endpoints, then the scan compares i against them;
* num_nodes > 3 (lines 65-88): the scan of lines 70-80 compares i against
  the UNmodified dual_node_indices[0] and [2] (cell indices), the write
  index j is never incremented, so only tweener_nodes[0] is ever written
  (ending with the last qualifying i) and entries 1..num_nodes-3 keep their
  garbage; line 87 writes endpoint_indices[0] — not [1] — into the last
  slot. -/
def order_nodes_of_dual_face (angleOf : ℕ → ℚ) (ep : ℤ × ℤ)
    (init : List ℤ) (garbage : ℕ → ℚ × ℤ) : List ℤ :=
  let n := init.length
  if n = 2 then
    [ep.1, ep.2]
  else if n = 3 then
    let found := ((List.range 3).filter
      (fun i => decide ((i : ℤ) ≠ ep.1) && decide ((i : ℤ) ≠ ep.2))).head?
    [ep.1, (found.map (fun i => (i : ℤ))).getD (init.getD 1 0), ep.2]
  else
    let cond := fun (i : ℕ) =>
      decide ((i : ℤ) ≠ init.getD 0 0) && decide ((i : ℤ) ≠ init.getD 2 0)
    let tw0 :=
      match ((List.range n).filter cond).getLast? with
      | some i => (angleOf i, (i : ℤ))
      | none => garbage 0
    let tweeners := tw0 :: (((List.range (n - 2)).drop 1).map garbage)
    let sorted := sortByAngle tweeners
    (ep.1 :: sorted.map Prod.snd) ++ [ep.1]

/-- The endpoint_indices selection of lines 394-407: walking the incident
cells in iteration order, the position of the first cell lying in
external_boundary_tets goes to slot 0, every later such position overwrites
slot 1 (both slots start at -1). -/
def endpointPositions (cells : List ℕ) (isBdryTet : ℕ → Bool) : ℤ × ℤ :=
  (cells.enum.foldl
    (fun ep ci =>
      if isBdryTet ci.2 then
        if ep.1 = -1 then ((ci.1 : ℤ), ep.2) else (ep.1, (ci.1 : ℤ))
      else ep)
    (-1, -1))

/-- The external-boundary branch of the edge loop (lines 382-428, without
the model-edge append): dual_node_indices is pre-filled with the incident
cell indices in iteration order, the endpoints are picked out, and
order_nodes_of_dual_face produces the node list that is memcpy'd into the
dual face. -/
def externalEdgeFaceNodes (angleOf : ℕ → ℚ) (cells : List ℕ)
    (isBdryTet : ℕ → Bool) (garbage : ℕ → ℚ × ℤ) : List ℤ :=
  order_nodes_of_dual_face angleOf (endpointPositions cells isBdryTet)
    (cells.map (fun c => (c : ℤ))) garbage

/-! ### The internal-interface branch of the edge loop (lines 441-543)

polygon_giftwrap / polygon_ordering are external library services; the ring
ordering they return is passed in as `ordering` (a permutation of the
positions 0..numCells-1).  mesh_cell_face_for_neighbor is passed in as
`sharedFace` (None models the -1 return).  int_array contents are modelled
as total functions ℤ → ℤ so that the out-of-range writes the code performs
are representable; `g1`/`g2` are the uninitialized initial contents of the
two arrays. -/

/-- State of the transition scan of lines 471-502: start_index1,
start_index2, stop_index1, stop_index2 (all initialized to -1). -/
structure TransitionState where
  start1 : ℤ
  start2 : ℤ
  stop1 : ℤ
  stop2 : ℤ
deriving DecidableEq, Repr

/-- One iteration of the transition scan (loop body, lines 472-502):
this_cell and next_cell are the PRIMAL CELL INDICES at ring positions i and
i+1; on the first transition start_index1/stop_index2 receive those cell
indices, on every later transition start_index2/stop_index1 do. -/
def transitionStep (cellAt : ℕ → ℤ) (numCells : ℕ) (isIBT : ℤ → Bool)
    (sharedFace : ℤ → ℤ → Option ℕ) (isIMF : ℕ → Bool)
    (st : TransitionState) (i : ℕ) : TransitionState :=
  let thisCell := cellAt i
  let nextCell := cellAt ((i + 1) % numCells)
  if isIBT thisCell && isIBT nextCell then
    match sharedFace thisCell nextCell with
    | some f =>
      if isIMF f then
        if st.start1 = -1 then
          { st with start1 := nextCell, stop2 := thisCell }
        else
          { st with start2 := nextCell, stop1 := thisCell }
      else st
    | none => st
  else st

/-- The transition scan over all ring positions. -/
def transitionsAfterScan (cellAt : ℕ → ℤ) (numCells : ℕ) (isIBT : ℤ → Bool)
    (sharedFace : ℤ → ℤ → Option ℕ) (isIMF : ℕ → Bool) : TransitionState :=
  (List.range numCells).foldl
    (transitionStep cellAt numCells isIBT sharedFace isIMF)
    { start1 := -1, start2 := -1, stop1 := -1, stop2 := -1 }

/-- Write to an int_array's data, modelled as a function update. -/
def writeArr (a : ℤ → ℤ) (i v : ℤ) : ℤ → ℤ :=
  fun j => if j = i then v else a j

/-- The list of integers lo, lo+1, ..., hi (empty when hi < lo). -/
def intRange (lo hi : ℤ) : List ℤ :=
  (List.range (hi - lo + 1).toNat).map (fun k => lo + (k : ℤ))

/-- The node lists the internal-interface branch emits for one edge
(lines 504-541 followed by the memcpy of line 667).  `cellAt p` is
dual_node_indices[ordering[p]].  Returns (face-1 list, face-2 list).

Faithful details:
* num_nodes1/num_nodes2 are computed by subtracting the CELL INDICES stored
  in start/stop (lines 506 and 519);
* the face-1 fill (lines 513-517) runs i from start_index1 to stop_index1
  and reads position (start_index1 + i) % num_cells;
* the face-2 fill (lines 526-530) runs i from 0 to num_nodes2 INCLUSIVE and
  writes to face1_nodes->data (line 529), so face2_nodes keeps its
  uninitialized contents;
* the model-edge append (lines 534-541) writes at index num_nodes1 resp.
  num_nodes2, one past the sizes the arrays were resized to (512, 525);
* the memcpy of line 667 copies exactly size entries, so the emitted list
  of face k is the first num_nodesk entries of its data. -/
def internalEdgeFaceNodes (cellAt : ℕ → ℤ) (numCells : ℕ)
    (isIBT : ℤ → Bool) (sharedFace : ℤ → ℤ → Option ℕ) (isIMF : ℕ → Bool)
    (isModelEdge : Bool) (edgeNode : ℤ) (g1 g2 : ℤ → ℤ) :
    List ℤ × List ℤ :=
  let st := transitionsAfterScan cellAt numCells isIBT sharedFace isIMF
  let numNodes1 := st.stop1 - st.start1 + 1
  let numNodes2 := st.stop2 - st.start2 + 1
  let d1a := (intRange st.start1 st.stop1).foldl
    (fun d i => writeArr d i (cellAt (((st.start1 + i) % (numCells : ℤ)).toNat)))
    g1
  let d1b := (intRange 0 numNodes2).foldl
    (fun d i => writeArr d i (cellAt (((st.start2 + i) % (numCells : ℤ)).toNat)))
    d1a
  let d1c := if isModelEdge then writeArr d1b numNodes1 edgeNode else d1b
  let d2a := if isModelEdge then writeArr g2 numNodes2 edgeNode else g2
  ((intRange 0 (numNodes1 - 1)).map d1c, (intRange 0 (numNodes2 - 1)).map d2a)

/-- Spec-side definition: the ring positions at which a transition
adjacency occurs — position i such that the cells at ring positions i and
(i+1) mod numCells are both incident to a tagged internal-boundary
tetrahedron and share a tagged internal-interface face. -/
def transitionPositions (cellAt : ℕ → ℤ) (numCells : ℕ) (isIBT : ℤ → Bool)
    (sharedFace : ℤ → ℤ → Option ℕ) (isIMF : ℕ → Bool) : List ℕ :=
  (List.range numCells).filter (fun i =>
    let thisCell := cellAt i
    let nextCell := cellAt ((i + 1) % numCells)
    isIBT thisCell && isIBT nextCell &&
      (match sharedFace thisCell nextCell with
       | some f => isIMF f
       | none => false))

/-- Spec-side definition: the arc of the ring running from position
fromPos to position toPos (inclusive, wrapping modulo n), listing the cells
at those positions. -/
def ringArc (cellAt : ℕ → ℤ) (n fromPos toPos : ℕ) : List ℤ :=
  (List.range ((toPos + n - fromPos) % n + 1)).map
    (fun k => cellAt ((fromPos + k) % n))

/-! ### Concrete ring data for the internal-interface branch

Five cells (indices 0..4) around an interface edge; the gift-wrap ordering
is the identity, so ring position p holds cell p.  Cells 0, 1, 2, 4 are
incident to tagged internal-boundary tetrahedra; cells 1,2 share tagged
interface face 7 and cells 4,0 share tagged interface face 8; no other
adjacent ring pair shares a tagged interface face. -/

/-- Cell index at each ring position (identity gift-wrap ordering). -/
def ringCellAt : ℕ → ℤ := fun p => (p : ℤ)

/-- internal_boundary_tets membership. -/
def ringIBT : ℤ → Bool := fun c => c == 0 || c == 1 || c == 2 || c == 4

/-- mesh_cell_face_for_neighbor on the ring cells. -/
def ringSharedFace : ℤ → ℤ → Option ℕ := fun a b =>
  if a == 1 && b == 2 then some 7
  else if a == 4 && b == 0 then some 8
  else none

/-- internal_model_faces membership. -/
def ringIMF : ℕ → Bool := fun f => f == 7 || f == 8

/-! ## Theorems for the claims -/

/-- C1: the claim says that for an external-boundary edge with more than 3
incident cells the emitted dual-face node list ends at the second endpoint.
Evaluating the code on an edge with incident cells 10,11,12,13 (cells 10
and 11 being the boundary endpoint cells, found at positions 0 and 1),
every polar angle 0 and tweener garbage (7, 99): the emitted list is
[0, 3, 99, 0] — its last entry equals its first entry (endpoint_indices[0],
line 87), not the second endpoint (neither position 1 nor cell 11); a
garbage index 99 appears because j is never incremented in the loop of
lines 70-80.  The two-cell case emits [0, 1] — the positions of the
endpoints, not the dual-vertex indices 7, 9 of the endpoint cells. -/
theorem c1_external_edge_face_path_broken :
    externalEdgeFaceNodes (fun _ => (0 : ℚ)) [10, 11, 12, 13]
        (fun c => c == 10 || c == 11) (fun _ => ((7 : ℚ), 99))
      = [0, 3, 99, 0] ∧
    endpointPositions [10, 11, 12, 13] (fun c => c == 10 || c == 11)
      = (0, 1) ∧
    (([0, 3, 99, 0] : List ℤ).getLast? = some 0 ∧ (0 : ℤ) ≠ 1 ∧ (0 : ℤ) ≠ 11) ∧
    externalEdgeFaceNodes (fun _ => (0 : ℚ)) [7, 9] (fun _ => true)
        (fun _ => ((7 : ℚ), 99))
      = [0, 1] ∧
    ([0, 1] : List ℤ) ≠ [7, 9] := by
  decide

/-- C2: the claim says the two emitted dual faces for an internal-interface
edge are exactly the two arcs of the gift-wrapped ring between the two
transition adjacencies.  On the five-cell ring above the two transitions
are at ring positions 1 and 4, so the arcs are [2, 3, 4] and [0, 1]; but
the code (with uninitialized array contents 66 and 77 and the edge dual
node 50) emits ([0, 1, 2], [77, 77]): face 1's buffer is overwritten by the
face-2 fill (line 529) and face 2 is never written at all, so neither
emitted list is either arc. -/
theorem c2_internal_edge_faces_are_not_the_arcs :
    transitionPositions ringCellAt 5 ringIBT ringSharedFace ringIMF = [1, 4] ∧
    ringArc ringCellAt 5 2 4 = [2, 3, 4] ∧
    ringArc ringCellAt 5 0 1 = [0, 1] ∧
    internalEdgeFaceNodes ringCellAt 5 ringIBT ringSharedFace ringIMF true 50
        (fun _ => 66) (fun _ => 77)
      = ([0, 1, 2], [77, 77]) ∧
    (([0, 1, 2] : List ℤ) ≠ [2, 3, 4] ∧ ([0, 1, 2] : List ℤ) ≠ [0, 1]) ∧
    (([77, 77] : List ℤ) ≠ [2, 3, 4] ∧ ([77, 77] : List ℤ) ≠ [0, 1]) := by
  decide

/-- C3: the claim says every cell's dual vertex is that cell's circumcenter
(or the nearest interior point) and lies inside that cell's convex hull.
The loop body of lines 300-307 never loads cell c's vertices into the
tetrahedron object, so the written dual vertex is the same point for every
cell, whatever the library's circumcenter and nearest-point functions
return on the freshly created tetrahedron; in particular for a mesh whose
cells 0 and 1 are the two disjoint tetrahedra below, the dual vertices of
cells 0 and 1 cannot both lie inside their cells' hulls. -/
theorem c3_cell_dual_vertex_ignores_the_cell (tet0 : Tetrahedron)
    (circ : Tetrahedron → Pt) (np : Tetrahedron → Pt → Pt) :
    (∀ c c' : ℕ, cellDualVertex tet0 circ np c = cellDualVertex tet0 circ np c') ∧
    ¬ (inTetHull (tetCell0 0) (tetCell0 1) (tetCell0 2) (tetCell0 3)
          (cellDualVertex tet0 circ np 0) ∧
       inTetHull (tetCell1 0) (tetCell1 1) (tetCell1 2) (tetCell1 3)
          (cellDualVertex tet0 circ np 1)) := by
  refine ⟨fun c c' => rfl, ?_⟩
  rintro ⟨h0, h1⟩
  obtain ⟨l0, l1, l2, l3, hl0, hl1, hl2, hl3, hls, hlx, -, -⟩ := h0
  obtain ⟨m0, m1, m2, m3, hm0, hm1, hm2, hm3, hms, hmx, -, -⟩ := h1
  simp only [tetCell0, tetCell1, cellDualVertex] at hlx hmx
  linarith

/-- C4: the claim says the edge loop ends with the running face counter
equal to the allocated edge-derived total |edges| + |external-boundary face
edges|.  For a mesh with a single edge that is an internal-interface face
edge (and no external face edges, no tagged-node faces) the loop emits 2
faces while the allocated edge-derived total is 1, so the equality — and
the code's own ASSERT(df_offset == num_dual_faces) at line 571 — fails. -/
theorem c4_edge_loop_counter_mismatch :
    dfOffsetAfterEdgeLoop
        [{ isExternalFaceEdge := false, isInternalFaceEdge := true }] = 2 ∧
    numDualFaces 1
        (([{ isExternalFaceEdge := false, isInternalFaceEdge := true }] :
            List EdgeClass).countP (fun e => e.isExternalFaceEdge)) 0 = 1 ∧
    (2 : ℕ) ≠ 1 := by
  decide

/-- Helper for C5: mapping every element of a list to a constant yields a
replicate of the list's length. -/
theorem map_const_eq_replicate {α β : Type} (l : List α) (b : β) :
    l.map (fun _ => b) = List.replicate l.length b := by
  induction l with
  | nil => rfl
  | cons a rest ih => simp [List.replicate_succ, ih]

/-- C5: the total dual-node count of lines 251-253 equals |cells| +
|tagged faces| + |tagged edges| + |tagged vertices|, and the dual vertices
are generated in contiguous category blocks — cells, then tagged faces,
then tagged edges, then tagged vertices — with the generation offset ending
at the total count, provided each tag family resolves to distinct element
indices (the counts of lines 251-253 are unordered-set sizes while the
generation loops of lines 297-365 run over the raw tag arrays, so the two
agree exactly when the tag arrays of a family carry no duplicates). -/
theorem c5_dual_node_count_and_blocks (mesh : TetMesh)
    (ext int edge vtx : List (List ℕ))
    (hext : ext.flatten.Nodup) (hint : int.flatten.Nodup)
    (hedge : edge.flatten.Nodup) (hvtx : vtx.flatten.Nodup) :
    numDualNodes mesh ext int edge vtx
      = mesh.num_cells + (tagEntryCount ext + tagEntryCount int)
        + tagEntryCount edge + tagEntryCount vtx ∧
    dualNodeGenSources mesh ext int edge vtx
      = List.replicate mesh.num_cells DualNodeSource.cell
        ++ List.replicate (tagEntryCount ext + tagEntryCount int)
            DualNodeSource.modelFace
        ++ List.replicate (tagEntryCount edge) DualNodeSource.modelEdge
        ++ List.replicate (tagEntryCount vtx) DualNodeSource.modelVertex ∧
    (dualNodeGenSources mesh ext int edge vtx).length
      = numDualNodes mesh ext int edge vtx := by
  have eext : setSize ext = tagEntryCount ext := by
    simp [setSize, tagEntryCount, List.dedup_eq_self.mpr hext]
  have eint : setSize int = tagEntryCount int := by
    simp [setSize, tagEntryCount, List.dedup_eq_self.mpr hint]
  have eedge : setSize edge = tagEntryCount edge := by
    simp [setSize, tagEntryCount, List.dedup_eq_self.mpr hedge]
  have evtx : setSize vtx = tagEntryCount vtx := by
    simp [setSize, tagEntryCount, List.dedup_eq_self.mpr hvtx]
  have hblocks : dualNodeGenSources mesh ext int edge vtx
      = List.replicate mesh.num_cells DualNodeSource.cell
        ++ List.replicate (tagEntryCount ext + tagEntryCount int)
            DualNodeSource.modelFace
        ++ List.replicate (tagEntryCount edge) DualNodeSource.modelEdge
        ++ List.replicate (tagEntryCount vtx) DualNodeSource.modelVertex := by
    unfold dualNodeGenSources tagEntryCount
    rw [map_const_eq_replicate (List.range mesh.num_cells), List.length_range,
      map_const_eq_replicate ext.flatten, map_const_eq_replicate int.flatten,
      map_const_eq_replicate edge.flatten, map_const_eq_replicate vtx.flatten,
      List.replicate_add]
    simp [List.append_assoc]
  refine ⟨?_, hblocks, ?_⟩
  · simp only [numDualNodes, eext, eint, eedge, evtx]
    ring
  · rw [hblocks]
    simp only [List.length_append, List.length_replicate, numDualNodes,
      eext, eint, eedge, evtx]
    ring

/-- Witness for C5 on concrete tags: two external faces, one internal face,
one model edge and one model vertex, all distinct within their families. -/
theorem c5_dual_node_count_and_blocks_witness :
    numDualNodes meshA [[0, 1]] [[2]] [[0]] [[3]]
      = meshA.num_cells + (tagEntryCount [[0, 1]] + tagEntryCount [[2]])
        + tagEntryCount [[0]] + tagEntryCount [[3]] ∧
    dualNodeGenSources meshA [[0, 1]] [[2]] [[0]] [[3]]
      = List.replicate meshA.num_cells DualNodeSource.cell
        ++ List.replicate (tagEntryCount [[0, 1]] + tagEntryCount [[2]])
            DualNodeSource.modelFace
        ++ List.replicate (tagEntryCount [[0]]) DualNodeSource.modelEdge
        ++ List.replicate (tagEntryCount [[3]]) DualNodeSource.modelVertex ∧
    (dualNodeGenSources meshA [[0, 1]] [[2]] [[0]] [[3]]).length
      = numDualNodes meshA [[0, 1]] [[2]] [[0]] [[3]] :=
  c5_dual_node_count_and_blocks meshA [[0, 1]] [[2]] [[0]] [[3]]
    (by decide) (by decide) (by decide) (by decide)

/-- C6: the claim says every dual face emitted for a tagged model edge ends
with that edge's dual vertex.  With the single model-edge tag [5, 0] and
dual-vertex offsets starting at 9, edge 5 gets dual vertex 9 and edge 0
gets dual vertex 10; but the append step of the external branch looks the
primal edge index up in a map keyed by tag position, so the face for model
edge 0 gets 9 — the vertex of edge 5 — appended, and the lookup for model
edge 5 fails outright (fatal ASSERT at line 435).  In the internal branch
the appended vertex (50) is written one slot past the size the array was
resized to, so neither emitted face list ends with it (they end with 2 and
with garbage 77). -/
theorem c6_model_edge_append_wrong_vertex :
    appendEdgeDualNode ((genEdgesTags meshA emptyMap 9 [[5, 0]]).2.2.1) 0 [3, 4]
      = some [3, 4, 9] ∧
    (genEdgesTags meshA emptyMap 9 [[5, 0]]).2.1 = [(5, 9), (0, 10)] ∧
    (9 : ℤ) ≠ 10 ∧
    appendEdgeDualNode ((genEdgesTags meshA emptyMap 9 [[5, 0]]).2.2.1) 5 [3, 4]
      = none ∧
    (internalEdgeFaceNodes ringCellAt 5 ringIBT ringSharedFace ringIMF true 50
        (fun _ => 66) (fun _ => 77)).1.getLast? = some 2 ∧
    (internalEdgeFaceNodes ringCellAt 5 ringIBT ringSharedFace ringIMF true 50
        (fun _ => 66) (fun _ => 77)).2.getLast? = some 77 := by
  decide

/-- C7: the claim says dual_node_for_edge maps the primal edge index to the
dual vertex generated for that edge.  With the single model-edge tag [5]
and dual-vertex offsets starting at 9, the generated pair is (edge 5,
vertex 9), but the map built at line 350 binds key 0 (the tag position),
and a lookup by the primal edge index 5 finds nothing. -/
theorem c7_dual_node_for_edge_keyed_by_position :
    (genEdgesTags meshA emptyMap 9 [[5]]).2.1 = [(5, 9)] ∧
    (genEdgesTags meshA emptyMap 9 [[5]]).2.2.1 5 = none ∧
    (genEdgesTags meshA emptyMap 9 [[5]]).2.2.1 0 = some 9 := by
  decide

/-- Counterexample for C8: a dual face listed by three dual cells 0, 1, 2.
The claim says the third write is rejected as a fatal topology error (so
slot 1 would still hold the second cell, 1); the code has no such check and
the third write lands in slot 1, leaving (0, 2). -/
theorem c8_third_write_not_rejected :
    faceCellsAfter [0, 1, 2] = (0, 2) ∧ (2 : ℤ) ≠ 1 := by
  decide

/-- Helper for C8: once slot 0 is occupied, folding further writes leaves
slot 0 alone and ends with slot 1 holding the last write. -/
theorem faceCellsWrite_foldl (cs : List ℤ) :
    ∀ s : ℤ × ℤ, s.1 ≠ -1 →
      cs.foldl faceCellsWrite s = (s.1, cs.getLastD s.2) := by
  induction cs with
  | nil => intro s _; rfl
  | cons c rest ih =>
    intro s hs
    have hw : faceCellsWrite s c = (s.1, c) := by
      simp [faceCellsWrite, hs]
    simp only [List.foldl_cons, hw]
    rw [ih (s.1, c) hs, List.getLastD_cons]

/-- C8 (amended): during face→cell back-fill the first dual cell listing a
face is written to slot 0 and every subsequent one is written to slot 1,
silently overwriting it — no error is raised — so the recorded pair after
any sequence of writes is the first and the last writer. -/
theorem c8_amended_first_and_last_writer (c1 : ℤ) (cs : List ℤ)
    (h : c1 ≠ -1) :
    faceCellsAfter (c1 :: cs) = (c1, cs.getLastD (-1)) := by
  unfold faceCellsAfter
  have hw : faceCellsWrite (-1, -1) c1 = (c1, -1) := by
    simp [faceCellsWrite]
  simp only [List.foldl_cons, hw]
  exact faceCellsWrite_foldl cs (c1, -1) h

/-- Witness for C8's amended statement at the concrete writes 0, 1, 2. -/
theorem c8_amended_first_and_last_writer_witness :
    faceCellsAfter ((0 : ℤ) :: [1, 2]) = (0, ([1, 2] : List ℤ).getLastD (-1)) :=
  c8_amended_first_and_last_writer 0 [1, 2] (by decide)

/-- C9: the dual vertex generated for a tagged model edge is exactly the
componentwise midpoint (x1+x2)/2 of the edge's two primal endpoint node
coordinates (lines 343-349). -/
theorem c9_model_edge_dual_vertex_is_midpoint (m : TetMesh) (edge : ℕ) :
    modelEdgeDualVertex m edge
      = midpointPt (m.nodes (m.edge_nodes edge).1)
          (m.nodes (m.edge_nodes edge).2) := by
  simp only [modelEdgeDualVertex, midpointPt, Pt.mk.injEq]
  refine ⟨by ring, by ring, by ring⟩

/-- C10: for any dual-cell count n ≥ 1 (num_dual_cells = num_nodes, so any
mesh with at least one node), the dual-cell assembly leaves every per-cell
face list NULL, the counter dc_offset stays 0 and violates the assertion
dc_offset == num_dual_cells (line 647), and the compaction loop
dereferences a NULL face list, so construction cannot complete normally. -/
theorem c10_dual_cell_assembly_never_completes (n : ℕ) (h : 1 ≤ n) :
    (facesForDualCell n).all (fun e => e.isNone) = true ∧
    dcOffsetFinal ≠ n ∧
    compactDualCells (facesForDualCell n) = none := by
  refine ⟨?_, ?_, ?_⟩
  · simp only [facesForDualCell, List.all_eq_true]
    intro e he
    have := List.eq_of_mem_replicate he
    simp [this]
  · simp only [dcOffsetFinal]
    omega
  · obtain ⟨m, rfl⟩ : ∃ m, n = m + 1 := ⟨n - 1, by omega⟩
    simp [facesForDualCell, List.replicate_succ, compactDualCells]

/-- Witness for C10 at a dual mesh with 3 dual cells. -/
theorem c10_dual_cell_assembly_never_completes_witness :
    (facesForDualCell 3).all (fun e => e.isNone) = true ∧
    dcOffsetFinal ≠ 3 ∧
    compactDualCells (facesForDualCell 3) = none :=
  c10_dual_cell_assembly_never_completes 3 (by decide)

end Polyglot
